import Mathlib

/-!
Verification development for the web-scraping report generator
(src/index.js).  The script is a linear pipeline:

  loadSystemPrompt / loadTargetURLs  →  scrapeURL (per target)  →
  generateReport (OpenAI call with local fallback)  →  write report.html  →
  htmlToPNG (screenshot).

Strings are modelled as `List Char` (JavaScript strings, one entry per code
point).  Every interaction with the outside world (browser navigation,
OpenAI call, clock, file system) is an explicit input of the corresponding
function, so that each JS function becomes a total Lean function of its
inputs plus the observed behaviour of the world.
-/

/-! ### JavaScript string primitives used by index.js -/

/-- The character class of JavaScript's regex `\s` (also the set trimmed by
String.prototype.trim): ASCII whitespace, NBSP, BOM, and the Unicode
space separators and line separators. -/
def isJsSpace (c : Char) : Bool :=
  c == ' ' || c == '\t' || c == '\n' || c == '\r' || c == '\x0b' || c == '\x0c' ||
  c.toNat == 0xA0 || c.toNat == 0x1680 ||
  (0x2000 ≤ c.toNat && c.toNat ≤ 0x200A) ||
  c.toNat == 0x2028 || c.toNat == 0x2029 || c.toNat == 0x202F ||
  c.toNat == 0x205F || c.toNat == 0x3000 || c.toNat == 0xFEFF

/-- JavaScript `s.trim()`: drop `\s` characters at both ends. -/
def jsTrim (s : List Char) : List Char :=
  ((s.dropWhile isJsSpace).reverse.dropWhile isJsSpace).reverse

/-- JavaScript `s.split(sep)` for a single-character separator. -/
def splitOnChar (sep : Char) : List Char → List (List Char)
  | [] => [[]]
  | c :: cs =>
    let r := splitOnChar sep cs
    if c = sep then [] :: r
    else
      match r with
      | [] => [[c]]
      | h :: t => (c :: h) :: t

/-- Decidable shorthand: the string contains no newline character. -/
def noNL (s : List Char) : Bool := s.all (fun c => c != '\n')

/-- The ECMAScript LineTerminator set: newline, carriage return, line
separator and paragraph separator.  JavaScript's `.` (without the s flag)
matches every character except these. -/
def isLineTerminator (c : Char) : Bool :=
  c == '\n' || c == '\r' || c.toNat == 0x2028 || c.toNat == 0x2029

/-- Decidable shorthand: the string contains no LineTerminator. -/
def noLT (s : List Char) : Bool := s.all (fun c => !isLineTerminator c)

/-! ### The TARGET_URLS regex of loadTargetURLs (src/index.js line 41)

The pattern is `/TARGET_URLS:\s*\n((?:- .*\n)+)/` and the code uses
`systemPrompt.match(urlPattern)`, i.e. the leftmost match, keeping capture
group 1.  We embed the backtracking semantics of this concrete pattern:

* `TARGET_URLS:` is a literal;
* `\s*` is greedy with backtracking, so after the literal the engine
  consumes whitespace as long as possible and backs off until the next
  character of the subject is the required `\n` and the capture group
  matches right after it (`matchWsThen`);
* `(?:- .*\n)+` captures the maximal initial run of lines that start with
  `- ` (dash, space), contain no further LineTerminator (`.` matches any
  character except `\n`, `\r`, U+2028, U+2029), and are terminated by
  `\n`; each such line is exactly one newline-terminated segment of the
  subject, and a final segment without a terminating newline can never be
  part of the capture (`bulletCapture`).
-/

/-- The literal `TARGET_URLS:` of the regex, as characters. -/
def headerChars : List Char :=
  ['T', 'A', 'R', 'G', 'E', 'T', '_', 'U', 'R', 'L', 'S', ':']

/-- Does a newline-terminated segment have the form `- .*`?  It must start
with dash, space, and the rest must contain no LineTerminator: `.` cannot
cross `\r`, U+2028 or U+2029 (a `\n` cannot occur inside a segment), and
backtracking cannot help because the `\n` the pattern then requires lies
beyond that LineTerminator. -/
def isBulletSeg : List Char → Bool
  | '-' :: ' ' :: rest => rest.all (fun c => !isLineTerminator c)
  | _ => false

/-- Capture of `(?:- .*\n)+` starting exactly at the beginning of `t`:
the maximal initial run of newline-terminated `- ` segments, re-joined
with their terminating newlines; `none` when that run is empty.  The final
segment of `t` (the part after the last `\n`, possibly empty) is never
newline-terminated, hence never capturable. -/
def bulletCapture (t : List Char) : Option (List Char) :=
  let segs := splitOnChar '\n' t
  let run := segs.dropLast.takeWhile isBulletSeg
  if run = [] then none
  else some ((run.map (fun l => l ++ ['\n'])).flatten)

/-- Match `\s*\n((?:- .*\n)+)` at the start of `t`, greedy `\s*` first
(returning the capture group).  At each whitespace character the engine
first tries to extend `\s*` over it; only if the remainder fails does it
try to use it as the required `\n`. -/
def matchWsThen : List Char → Option (List Char)
  | [] => none
  | c :: rest =>
    if isJsSpace c then
      match matchWsThen rest with
      | some cap => some cap
      | none => if c = '\n' then bulletCapture rest else none
    else none

/-- Try the whole pattern at the current position of the subject. -/
def matchFromHere (s : List Char) : Option (List Char) :=
  if headerChars.isPrefixOf s then matchWsThen (s.drop headerChars.length)
  else none

/-- `systemPrompt.match(urlPattern)`, capture group 1: try the pattern at
every position from the left, returning the first capture. -/
def regexMatchCapture : List Char → Option (List Char)
  | [] => none
  | c :: rest =>
    match matchFromHere (c :: rest) with
    | some cap => some cap
    | none => regexMatchCapture rest

/-! ### loadTargetURLs (src/index.js lines 33–55) -/

/-- `line.trim().startsWith('-')`, the filter on the captured lines. -/
def trimStartsWithDash (line : List Char) : Bool :=
  match jsTrim line with
  | '-' :: _ => true
  | _ => false

/-- `line.replace(/^-\s*/, '')`: if the line starts with `-`, remove it
and the following whitespace run; otherwise the line is unchanged. -/
def stripBullet (line : List Char) : List Char :=
  match line with
  | '-' :: rest => rest.dropWhile isJsSpace
  | _ => line

/-- The built-in default target URL (src/index.js lines 52–54). -/
def defaultURL : String := "https://www.google.com/finance/quote/VIX:INDEXCBOE"

/-- The default target list returned when neither source yields URLs. -/
def defaultURLs : List (List Char) := [defaultURL.data]

/-- The branch of loadTargetURLs that extracts targets from the system
prompt (src/index.js lines 40–54): regex match, split the capture on
newlines, keep lines whose trimmed form starts with `-`, strip the bullet
marker and trim. -/
def targetsFromPrompt (systemPrompt : List Char) : List (List Char) :=
  match regexMatchCapture systemPrompt with
  | some captured =>
    ((splitOnChar '\n' captured).filter trimStartsWithDash).map
      (fun line => jsTrim (stripBullet line))
  | none => defaultURLs

/-- loadTargetURLs (src/index.js lines 33–55).  `envTargetURLs` models
`process.env.TARGET_URLS` (`none` = unset); a set but empty string is
falsy in JS, so it also falls through to the prompt.  The prompt template
content is a parameter (the file read is modelled separately). -/
def loadTargetURLs (envTargetURLs : Option (List Char)) (systemPrompt : List Char) :
    List (List Char) :=
  match envTargetURLs with
  | some s => if s = [] then targetsFromPrompt systemPrompt
              else (splitOnChar ',' s).map jsTrim
  | none => targetsFromPrompt systemPrompt

/-! ### The Fetcher: scrapeURL (src/index.js lines 60–122)

A browser navigation either reaches the page — in which case the
`page.evaluate` callback observes the loaded document — or throws, in
which case only the error message is observed.  `RawPage` is the loaded
document as seen by the callback after the `script`/`style` removal. -/

/-- The loaded document observed by the `page.evaluate` callback:
document title, `document.body.innerText`, the text content of the first
price-selector hit (if any), the text contents of the temperature-selector
hits, and `window.location.href`. -/
structure RawPage where
  title : List Char
  bodyInnerText : List Char
  priceElement : Option (List Char)
  tempElements : List (List Char)
  href : List Char
  deriving DecidableEq

/-- The loosely-typed structured fields probed by scrapeURL: a key is
absent when its selector found nothing. -/
structure StructuredData where
  price : Option (List Char)
  weather : Option (List (List Char))
  deriving DecidableEq

/-- The object returned by the `page.evaluate` callback on success
(src/index.js lines 78–108). -/
structure PageData where
  title : List Char
  bodyText : List Char
  structuredData : StructuredData
  url : List Char
  deriving DecidableEq

/-- The Snapshot produced by scrapeURL for one target.  Success snapshots
carry `structuredData` and no `error`; failure snapshots carry `error`
and no `structuredData` (src/index.js lines 102–107 and 113–118). -/
structure Snapshot where
  url : List Char
  title : List Char
  bodyText : List Char
  structuredData : Option StructuredData
  error : Option (List Char)
  deriving DecidableEq

/-- Outcome of one browser navigation plus extraction: the loaded page, or
the message of the exception thrown during navigation or extraction. -/
inductive FetchOutcome
  | ok (page : RawPage)
  | error (msg : List Char)
  deriving DecidableEq

/-- The `page.evaluate` callback (src/index.js lines 78–108): capture the
title, the body text truncated with `substring(0, 5000)`, the trimmed
price text if the price selector matched, the trimmed temperature texts if
at least one temperature selector matched, and the page URL. -/
def pageEvaluate (p : RawPage) : PageData :=
  { title := p.title
    bodyText := p.bodyInnerText.take 5000
    structuredData :=
      { price := p.priceElement.map jsTrim
        weather := if p.tempElements.length > 0 then some (p.tempElements.map jsTrim)
                   else none }
    url := p.href }

/-- scrapeURL (src/index.js lines 60–122): on success return the page
data; on any exception return the error snapshot of lines 113–118 — the
requested URL, the error message, the sentinel title, a body text that
embeds the message, and no structured fields.  Both branches return a
Snapshot; the function is total (never raises). -/
def scrapeURL (url : List Char) (outcome : FetchOutcome) : Snapshot :=
  match outcome with
  | .ok p =>
    let d := pageEvaluate p
    { url := d.url, title := d.title, bodyText := d.bodyText
      structuredData := some d.structuredData, error := none }
  | .error msg =>
    { url := url, title := ("Error").data
      bodyText := ("Failed to scrape: ").data ++ msg
      structuredData := none, error := some msg }

/-- The scraping loop of main (src/index.js lines 240–244): one scrapeURL
call per target, in order, results pushed in order.  `world` gives the
navigation outcome the browser produces for each target. -/
def runScrapeLoop (urls : List (List Char)) (world : List Char → FetchOutcome) :
    List Snapshot :=
  urls.map (fun u => scrapeURL u (world u))

/-! ### JSON.stringify(scrapedData, null, 2)

The fallback document and the OpenAI user message embed
`JSON.stringify(scrapedData, null, 2)`.  We embed that serialization for
the snapshot values the pipeline produces: strings, string arrays, and the
snapshot objects with their JS key insertion order. -/

/-- One hexadecimal digit, lowercase, as produced by JSON.stringify's
unicode escapes. -/
def hexDigit (n : Nat) : Char :=
  if n < 10 then Char.ofNat (48 + n) else Char.ofNat (87 + n)

/-- Four-digit lowercase hex form of a code point below 0x10000. -/
def hex4 (n : Nat) : List Char :=
  [hexDigit (n / 4096 % 16), hexDigit (n / 256 % 16), hexDigit (n / 16 % 16),
   hexDigit (n % 16)]

/-- JSON.stringify's escaping of one character inside a quoted string. -/
def jsonEscapeChar (c : Char) : List Char :=
  if c = '"' then ['\\', '"']
  else if c = '\\' then ['\\', '\\']
  else if c = '\x08' then ['\\', 'b']
  else if c = '\x0c' then ['\\', 'f']
  else if c = '\n' then ['\\', 'n']
  else if c = '\r' then ['\\', 'r']
  else if c = '\t' then ['\\', 't']
  else if c.toNat < 32 then '\\' :: 'u' :: hex4 c.toNat
  else [c]

/-- A JSON quoted string. -/
def jsonQuote (s : List Char) : List Char :=
  '"' :: ((s.map jsonEscapeChar).flatten ++ ['"'])

/-- Join serialized items with a separator. -/
def joinSep (sep : List Char) : List (List Char) → List Char
  | [] => []
  | [x] => x
  | x :: xs => x ++ sep ++ joinSep sep xs

/-- JSON.stringify of an array whose elements are already serialized at
one indentation level deeper; `indent` is the indentation of the closing
bracket (gap is two spaces). -/
def jsonArray (indent : List Char) (elems : List (List Char)) : List Char :=
  match elems with
  | [] => ("[]").data
  | _ => ("[\n").data ++
         joinSep ((",\n").data) (elems.map (fun e => indent ++ ("  ").data ++ e)) ++
         ("\n").data ++ indent ++ ("]").data

/-- JSON.stringify of an object from its (key, serialized value) fields in
insertion order; `indent` is the indentation of the closing brace. -/
def jsonObject (indent : List Char) (fields : List (List Char × List Char)) :
    List Char :=
  match fields with
  | [] => ("\x7b\x7d").data
  | _ => ("\x7b\n").data ++
         joinSep ((",\n").data)
           (fields.map (fun f =>
             indent ++ ("  ").data ++ jsonQuote f.1 ++ (": ").data ++ f.2)) ++
         ("\n").data ++ indent ++ ("\x7d").data

/-- Serialization of a snapshot's `structuredData` object: `price` was
inserted before `weather` (src/index.js lines 88–100); absent fields have
no key. -/
def stringifyStructuredData (indent : List Char) (sd : StructuredData) : List Char :=
  jsonObject indent
    ((match sd.price with
      | some p => [(("price").data, jsonQuote p)]
      | none => []) ++
     (match sd.weather with
      | some w => [(("weather").data, jsonArray (indent ++ ("  ").data) (w.map jsonQuote))]
      | none => []))

/-- Serialization of one snapshot object.  Success snapshots were built as
`{title, bodyText, structuredData, url}` (lines 102–107), failure
snapshots as `{url, error, title, bodyText}` (lines 113–118); JS preserves
that key insertion order. -/
def stringifySnapshot (indent : List Char) (s : Snapshot) : List Char :=
  match s.error with
  | some e =>
    jsonObject indent
      [(("url").data, jsonQuote s.url),
       (("error").data, jsonQuote e),
       (("title").data, jsonQuote s.title),
       (("bodyText").data, jsonQuote s.bodyText)]
  | none =>
    jsonObject indent
      ([(("title").data, jsonQuote s.title),
        (("bodyText").data, jsonQuote s.bodyText)] ++
       (match s.structuredData with
        | some sd => [(("structuredData").data,
                       stringifyStructuredData (indent ++ ("  ").data) sd)]
        | none => []) ++
       [(("url").data, jsonQuote s.url)])

/-- `JSON.stringify(scrapedData, null, 2)` for the scraped snapshot
array. -/
def jsonStringifySnapshots (scrapedData : List Snapshot) : List Char :=
  jsonArray [] (scrapedData.map (stringifySnapshot (("  ").data)))

/-! ### The Synthesizer: generateReport (src/index.js lines 127–189)

The OpenAI call either returns generated text or throws; `ApiOutcome`
records which.  The fallback template (lines 160–187) additionally reads
the clock (`new Date().toLocaleString('ja-JP')`), modelled by the `now`
parameter.  The template literal is split below into its verbatim
segments, in source order; the braces of the inline CSS are written with
hex escapes. -/

/-- Outcome of `openai.chat.completions.create(...)` as observed by
generateReport: the response text of choice 0, or the thrown error's
message. -/
inductive ApiOutcome
  | ok (content : List Char)
  | error (msg : List Char)
  deriving DecidableEq

/-- Fallback template, segment before the timestamp interpolation. -/
def fbHead : String :=
  "\n<!DOCTYPE html>\n<html lang=\"ja\">\n<head>\n    <meta charset=\"UTF-8\">\n    <meta name=\"viewport\" content=\"width=device-width, initial-scale=1.0\">\n    <title>Scraping Report</title>\n    <style>\n        body \x7b font-family: sans-serif; padding: 20px; line-height: 1.6; \x7d\n        .error \x7b color: red; padding: 20px; border: 1px solid red; \x7d\n        .data-section \x7b margin: 20px 0; padding: 15px; background: #f5f5f5; \x7d\n        h1 \x7b color: #333; \x7d\n        pre \x7b background: #f0f0f0; padding: 10px; overflow-x: auto; \x7d\n    </style>\n</head>\n<body>\n    <h1>Scraping Report - "

/-- Fallback template, between the timestamp and the error banner. -/
def fbAfterTitle : String := "</h1>\n    "

/-- Fallback template, the error banner up to the failure description. -/
def fbBannerOpen : String :=
  "<div class=\"error\">\n        <h2>Error generating report</h2>\n        <p>"

/-- Fallback template, closing tag of the failure description. -/
def fbBannerClose : String := "</p>"

/-- Fallback template, between the banner and the raw-data section. -/
def fbAfterBanner : String := "\n    </div>\n    "

/-- Fallback template, the raw-data section up to its `pre` block. -/
def fbDataOpen : String :=
  "<div class=\"data-section\">\n        <h2>Raw Data</h2>\n        "

/-- Fallback template, everything after the raw-data dump. -/
def fbTail : String := "\n    </div>\n</body>\n</html>\n    "

/-- The fallback HTML document of generateReport (src/index.js lines
160–187): the template literal with the clock reading, the error message
and the snapshot dump interpolated. -/
def fallbackHTML (scrapedData : List Snapshot) (errMsg now : List Char) : List Char :=
  fbHead.data ++ now ++ fbAfterTitle.data ++
  fbBannerOpen.data ++ errMsg ++ fbBannerClose.data ++ fbAfterBanner.data ++
  fbDataOpen.data ++ ("<pre>").data ++ jsonStringifySnapshots scrapedData ++
  ("</pre>").data ++ fbTail.data

/-- The visible error banner paragraph of the fallback document, with the
failure description embedded. -/
def errorBanner (errMsg : List Char) : List Char :=
  fbBannerOpen.data ++ errMsg ++ fbBannerClose.data

/-- The preformatted verbatim dump of the snapshot sequence in the
fallback document. -/
def preDump (scrapedData : List Snapshot) : List Char :=
  ("<pre>").data ++ jsonStringifySnapshots scrapedData ++ ("</pre>").data

/-- generateReport (src/index.js lines 127–189): return the API response
text on success, the local fallback document on any API failure.  Both
branches return a document; the function is total (the failure never
propagates).  The system prompt only feeds the request, never the
fallback. -/
def generateReport (scrapedData : List Snapshot) (systemPrompt : List Char)
    (api : ApiOutcome) (now : List Char) : List Char :=
  match api with
  | .ok content => content
  | .error msg => fallbackHTML scrapedData msg now

/-! ### The Orchestrator: main (src/index.js lines 229–266)

For the temporal claim we record the sequence of stage invocations main
performs.  An event is appended when the stage is entered; the single
try/catch of main means any stage failure skips all later stages. -/

/-- Stage invocations of main, in trace order. -/
inductive Event
  | loadPrompt
  | scrape (url : List Char)
  | generate
  | persistReport
  | invokeRenderer
  deriving DecidableEq

/-- Everything main observes from the outside world in one run. -/
structure World where
  promptResult : Except (List Char) (List Char)
  envTargetURLs : Option (List Char)
  fetch : List Char → FetchOutcome
  api : ApiOutcome
  now : List Char
  writeResult : Except (List Char) Unit
  renderResult : Except (List Char) Unit

/-- The events of a run that got past loading the system prompt: the
prompt load, one scrape per resolved target in order, and the report
generation (src/index.js lines 234–248). -/
def mainEvents (w : World) (sp : List Char) : List Event :=
  Event.loadPrompt :: (loadTargetURLs w.envTargetURLs sp).map Event.scrape ++
    [Event.generate]

/-- Stage trace of main (src/index.js lines 229–266) plus the overall
success flag: a failing prompt load aborts immediately; the report write
(line 252) precedes the Renderer call (line 258); a failing write skips
the Renderer; a failing render aborts after the Renderer was invoked. -/
def mainRun (w : World) : List Event × Bool :=
  match w.promptResult with
  | .error _ => ([Event.loadPrompt], false)
  | .ok sp =>
    match w.writeResult with
    | .error _ => (mainEvents w sp ++ [Event.persistReport], false)
    | .ok _ =>
      match w.renderResult with
      | .error _ => (mainEvents w sp ++ [Event.persistReport, Event.invokeRenderer], false)
      | .ok _ => (mainEvents w sp ++ [Event.persistReport, Event.invokeRenderer], true)

/-! ### Concrete inputs used by witnesses and counterexamples -/

/-- "No TARGET_URLS override in the environment": the variable is unset,
or set to the empty string (falsy in JS, so also ignored). -/
def noEnvOverride (env : Option (List Char)) : Prop := env = none ∨ env = some []

/-- A concrete target list. -/
def urls0 : List (List Char) := [("https://a.example/").data, ("https://b.example/").data]

/-- A concrete fetch world: every navigation fails. -/
def world0 : List Char → FetchOutcome :=
  fun _ => FetchOutcome.error (("net::ERR_NAME_NOT_RESOLVED").data)

/-- A concrete navigation error message. -/
def msg0 : List Char := ("page.goto: Timeout 30000ms exceeded.").data

/-- A concrete run in which rendering fails after the report was written. -/
def w0 : World :=
  { promptResult := Except.ok []
    envTargetURLs := some (("https://a.example/").data)
    fetch := world0
    api := ApiOutcome.error (("401 Incorrect API key").data)
    now := ("2025/1/1 9:00:00").data
    writeResult := Except.ok ()
    renderResult := Except.error (("page.screenshot: failed").data) }

/-- A prompt template containing the recognized header followed by the
bullet lines of targets x and y. -/
def c6Prompt : String := "Intro text\nTARGET_URLS:\n- x\n- y\nTrailing text\n"

/-- A prompt template with no recognized marker section. -/
def noMarkerPrompt : String := "You are a report generator.\nNo url section here.\n"

/-- A prompt template whose marker section has zero bullet lines. -/
def emptyMarkerPrompt : String := "TARGET_URLS:\nNothing follows the header.\n"

/-- Concrete bullet contents for the unterminated-bullet witness. -/
def x0 : List Char := ("https://x.example/").data

/-- Concrete content of a final, unterminated bullet line. -/
def y0 : List Char := ("https://y.example/").data

set_option maxRecDepth 100000

/-! ### Helper lemmas -/

theorem noNL_cons (c : Char) (l : List Char) :
    noNL (c :: l) = ((c != '\n') && noNL l) := rfl

theorem noNL_head (c : Char) (l : List Char) (h : noNL (c :: l) = true) : c ≠ '\n' := by
  simp [noNL] at h
  exact h.1

theorem noNL_tail (c : Char) (l : List Char) (h : noNL (c :: l) = true) : noNL l = true := by
  simp [noNL] at h ⊢
  exact h.2

theorem noLT_noNL (s : List Char) (h : noLT s = true) : noNL s = true := by
  rw [noLT, List.all_eq_true] at h
  rw [noNL, List.all_eq_true]
  intro c hc
  have h2 := h c hc
  simp [isLineTerminator] at h2
  simp [h2.1]

theorem splitOnChar_noNL (l : List Char) (h : noNL l = true) :
    splitOnChar '\n' l = [l] := by
  induction l with
  | nil => rfl
  | cons c cs ih =>
    have hc : ¬(c = '\n') := noNL_head c cs h
    have hcs := ih (noNL_tail c cs h)
    simp [splitOnChar, hc, hcs]

theorem splitOnChar_append (a r : List Char) (h : noNL a = true) :
    splitOnChar '\n' (a ++ '\n' :: r) = a :: splitOnChar '\n' r := by
  induction a with
  | nil => simp [splitOnChar]
  | cons c cs ih =>
    have hc : ¬(c = '\n') := noNL_head c cs h
    have ih' := ih (noNL_tail c cs h)
    simp [splitOnChar, hc, ih']

theorem dropWhile_append_dash (l : List Char) :
    ∃ m, (l ++ ['-']).dropWhile isJsSpace = m ++ ['-'] := by
  induction l with
  | nil => exact ⟨[], by decide⟩
  | cons c cs ih =>
    by_cases hc : isJsSpace c = true
    · obtain ⟨m, hm⟩ := ih
      exact ⟨m, by simp [List.dropWhile_cons, hc, hm]⟩
    · exact ⟨c :: cs, by simp [List.dropWhile_cons, hc]⟩

theorem trimStartsWithDash_dash (l : List Char) : trimStartsWithDash ('-' :: l) = true := by
  have h1 : ('-' :: l).dropWhile isJsSpace = '-' :: l := by
    rw [List.dropWhile_cons, if_neg (by decide)]
  obtain ⟨m, hm⟩ := dropWhile_append_dash l.reverse
  unfold trimStartsWithDash jsTrim
  rw [h1, List.reverse_cons, hm, List.reverse_append]
  rfl

theorem jsTrim_dropWhile (l : List Char) :
    jsTrim (l.dropWhile isJsSpace) = jsTrim l := by
  simp [jsTrim, List.dropWhile_idempotent]

theorem matchWsThen_noNL (t : List Char) (h : noNL t = true) : matchWsThen t = none := by
  induction t with
  | nil => rfl
  | cons c cs ih =>
    have hc : ¬(c = '\n') := noNL_head c cs h
    have ih' := ih (noNL_tail c cs h)
    simp [matchWsThen, ih', hc]

theorem noNL_drop (n : Nat) (l : List Char) (h : noNL l = true) :
    noNL (l.drop n) = true := by
  rw [noNL, List.all_eq_true] at h ⊢
  intro x hx
  exact h x (List.drop_subset n l hx)

theorem regexMatchCapture_noNL (s : List Char) (h : noNL s = true) :
    regexMatchCapture s = none := by
  induction s with
  | nil => rfl
  | cons c cs ih =>
    have ih' := ih (noNL_tail c cs h)
    have hw : matchWsThen ((c :: cs).drop headerChars.length) = none :=
      matchWsThen_noNL _ (noNL_drop _ _ h)
    simp [regexMatchCapture, matchFromHere, hw, ih']

/-! ### Claims -/

/-- C1: for every non-empty sequence of targets, the scraping loop of
main produces a snapshot sequence of identical length whose i-th element
is the result of fetching the i-th target (1:1, order-preserving). -/
theorem runScrapeLoop_one_to_one (urls : List (List Char))
    (world : List Char → FetchOutcome) (i : Nat) (hne : urls ≠ []) :
    (runScrapeLoop urls world).length = urls.length ∧
    (runScrapeLoop urls world)[i]? = urls[i]?.map (fun u => scrapeURL u (world u)) := by
  refine ⟨by simp [runScrapeLoop], ?_⟩
  simp [runScrapeLoop, List.getElem?_map]

/-- Witness for C1 at a concrete two-target run. -/
theorem runScrapeLoop_one_to_one_witness :
    urls0 ≠ [] ∧ (runScrapeLoop urls0 world0).length = urls0.length :=
  ⟨by decide, (runScrapeLoop_one_to_one urls0 world0 0 (by decide)).1⟩

/-- C2: scrapeURL is a total function of the target and the navigation
outcome (it never raises), and on any failure carrying a non-empty
message it yields a snapshot whose error field is that non-empty message,
whose title is the sentinel, whose body text contains the message, and
which carries no structured fields. -/
theorem scrapeURL_failure_snapshot (url msg : List Char) (h : msg ≠ []) :
    (scrapeURL url (FetchOutcome.error msg)).error = some msg ∧
    msg ≠ [] ∧
    (scrapeURL url (FetchOutcome.error msg)).title = ("Error").data ∧
    (∃ pre suf, (scrapeURL url (FetchOutcome.error msg)).bodyText = pre ++ msg ++ suf) ∧
    (scrapeURL url (FetchOutcome.error msg)).structuredData = none := by
  refine ⟨rfl, h, rfl, ⟨("Failed to scrape: ").data, [], ?_⟩, rfl⟩
  simp [scrapeURL]

/-- Witness for C2 at a concrete timeout failure. -/
theorem scrapeURL_failure_snapshot_witness :
    msg0 ≠ [] ∧
    (scrapeURL (("https://bad.example/").data) (FetchOutcome.error msg0)).error = some msg0 :=
  ⟨by decide, (scrapeURL_failure_snapshot (("https://bad.example/").data) msg0 (by decide)).1⟩

/-- C3: on any failure of the remote call, generateReport does not
propagate the failure but returns the fallback document, which contains
the visible error banner with the failure description, and the
preformatted verbatim serialization of the full snapshot sequence. -/
theorem generateReport_failure_fallback (scrapedData : List Snapshot)
    (systemPrompt msg now : List Char) :
    generateReport scrapedData systemPrompt (ApiOutcome.error msg) now =
      fallbackHTML scrapedData msg now ∧
    (∃ pre suf, generateReport scrapedData systemPrompt (ApiOutcome.error msg) now =
      pre ++ errorBanner msg ++ suf) ∧
    (∃ pre suf, generateReport scrapedData systemPrompt (ApiOutcome.error msg) now =
      pre ++ preDump scrapedData ++ suf) := by
  refine ⟨rfl,
    ⟨fbHead.data ++ now ++ fbAfterTitle.data,
     fbAfterBanner.data ++ fbDataOpen.data ++ ("<pre>").data ++
       jsonStringifySnapshots scrapedData ++ ("</pre>").data ++ fbTail.data, ?_⟩,
    ⟨fbHead.data ++ now ++ fbAfterTitle.data ++ fbBannerOpen.data ++ msg ++
       fbBannerClose.data ++ fbAfterBanner.data ++ fbDataOpen.data,
     fbTail.data, ?_⟩⟩ <;>
  simp [generateReport, fallbackHTML, errorBanner, preDump, List.append_assoc]

/-- C4, counterexample: two runs with identical snapshot sequences and an
identical failure reason but different clock readings produce different
fallback documents (the template embeds the current date). -/
theorem generateReport_fallback_clock_dependent :
    generateReport [] [] (ApiOutcome.error (("quota exceeded").data))
      (("2025/1/1 9:00:00").data) ≠
    generateReport [] [] (ApiOutcome.error (("quota exceeded").data))
      (("2025/1/2 9:00:00").data) := by
  decide

/-- C4, amended: the fallback path is deterministic given the snapshot
sequence, the failure reason and the clock reading, and is independent of
the prompt template. -/
theorem generateReport_fallback_deterministic (scrapedData : List Snapshot)
    (sp1 sp2 msg now : List Char) :
    generateReport scrapedData sp1 (ApiOutcome.error msg) now =
    generateReport scrapedData sp2 (ApiOutcome.error msg) now := rfl

/-- C5: with TARGET_URLS set to a non-empty comma-separated list,
loadTargetURLs returns exactly the split, trimmed entries, regardless of
the prompt template content. -/
theorem loadTargetURLs_env_override (systemPrompt : List Char) :
    loadTargetURLs (some (("a,b").data)) systemPrompt = [("a").data, ("b").data] ∧
    loadTargetURLs (some ((" a , b ").data)) systemPrompt = [("a").data, ("b").data] :=
  ⟨rfl, rfl⟩

/-- C8: for every successfully fetched target, the snapshot's body text is
the page's body text truncated with substring(0, 5000), hence at most
5000 characters long. -/
theorem scrapeURL_truncates_body (url : List Char) (p : RawPage) :
    (scrapeURL url (FetchOutcome.ok p)).bodyText = p.bodyInnerText.take 5000 ∧
    (scrapeURL url (FetchOutcome.ok p)).bodyText.length ≤ 5000 :=
  ⟨rfl, by simpa [scrapeURL, pageEvaluate] using List.length_take_le 5000 p.bodyInnerText⟩

/-- C6: with no TARGET_URLS override, a prompt template containing the
recognized header immediately followed by the bullet lines of x and y
resolves to exactly those two entries, in order, trimmed. -/
theorem loadTargetURLs_template_bullets (env : Option (List Char))
    (h : noEnvOverride env) :
    loadTargetURLs env (c6Prompt.data) = [("x").data, ("y").data] := by
  rcases h with rfl | rfl
  · decide
  · decide

/-- Witness for C6 with the variable unset. -/
theorem loadTargetURLs_template_bullets_witness :
    noEnvOverride none ∧ loadTargetURLs none (c6Prompt.data) = [("x").data, ("y").data] :=
  ⟨Or.inl rfl, loadTargetURLs_template_bullets none (Or.inl rfl)⟩

/-- C7: with no TARGET_URLS override, any prompt template in which the
pattern finds no marker section resolves to the single built-in default;
in particular a template without the marker, and a template whose marker
section has zero bullet lines, both resolve to the default. -/
theorem loadTargetURLs_default_fallback (env : Option (List Char))
    (h : noEnvOverride env) :
    (∀ systemPrompt, regexMatchCapture systemPrompt = none →
      loadTargetURLs env systemPrompt = defaultURLs) ∧
    loadTargetURLs env (noMarkerPrompt.data) = defaultURLs ∧
    regexMatchCapture (emptyMarkerPrompt.data) = none ∧
    loadTargetURLs env (emptyMarkerPrompt.data) = defaultURLs := by
  have hgen : ∀ env2, noEnvOverride env2 → ∀ systemPrompt,
      regexMatchCapture systemPrompt = none →
      loadTargetURLs env2 systemPrompt = defaultURLs := by
    rintro env2 (rfl | rfl) sp hp <;> simp [loadTargetURLs, targetsFromPrompt, hp]
  refine ⟨hgen env h, ?_, by decide, ?_⟩
  · exact hgen env h _ (by decide)
  · exact hgen env h _ (by decide)

/-- Witness for C7 with the variable unset. -/
theorem loadTargetURLs_default_fallback_witness :
    noEnvOverride none ∧ loadTargetURLs none (noMarkerPrompt.data) = defaultURLs :=
  ⟨Or.inl rfl, (loadTargetURLs_default_fallback none (Or.inl rfl)).2.1⟩

/-- C9: in every run in which main invokes the Renderer, the persist of
the report document occurs strictly before that invocation in the stage
trace (so the persisted document exists even when rendering then fails). -/
theorem mainRun_persists_before_render (w : World)
    (h : Event.invokeRenderer ∈ (mainRun w).1) :
    List.Sublist [Event.persistReport, Event.invokeRenderer] (mainRun w).1 := by
  obtain ⟨pr, env, f, api, now, wr, rr⟩ := w
  cases pr with
  | error e => simp [mainRun] at h
  | ok sp =>
    cases wr with
    | error e => simp [mainRun, mainEvents] at h
    | ok u =>
      cases rr with
      | error e2 => exact List.sublist_append_right _ _
      | ok u2 => exact List.sublist_append_right _ _

/-- Witness for C9: a run whose rendering fails after the report was
persisted. -/
theorem mainRun_persists_before_render_witness :
    Event.invokeRenderer ∈ (mainRun w0).1 ∧
    List.Sublist [Event.persistReport, Event.invokeRenderer] (mainRun w0).1 :=
  ⟨by decide, mainRun_persists_before_render w0 (by decide)⟩

/-- C10: in template-based resolution the bullet pattern requires every
bullet line to be terminated by a newline: for any x and y free of
LineTerminators (the characters the regex dot cannot match), a template
whose final bullet line y is at end of file without a trailing newline
resolves to the earlier entries only (y is excluded), and a marker
section whose only bullet lacks a trailing newline resolves to the
built-in default. -/
theorem template_final_bullet_needs_newline (x y : List Char)
    (hx : noLT x = true) (hy : noLT y = true) :
    loadTargetURLs none
      (headerChars ++ '\n' :: '-' :: ' ' :: (x ++ '\n' :: '-' :: ' ' :: y)) = [jsTrim x] ∧
    loadTargetURLs none (headerChars ++ '\n' :: '-' :: ' ' :: y) = defaultURLs := by
  have hnx : noNL x = true := noLT_noNL x hx
  have hny : noNL y = true := noLT_noNL y hy
  have hdx : noNL ('-' :: ' ' :: x) = true := by
    rw [noNL_cons, noNL_cons, hnx]; decide
  have hdy : noNL ('-' :: ' ' :: y) = true := by
    rw [noNL_cons, noNL_cons, hny]; decide
  have hbs : isBulletSeg ('-' :: ' ' :: x) = true := hx
  constructor
  · -- part (a): the final unterminated bullet is excluded from the capture
    have hspl : splitOnChar '\n' ('-' :: ' ' :: (x ++ '\n' :: '-' :: ' ' :: y)) =
        [('-' :: ' ' :: x), ('-' :: ' ' :: y)] := by
      have h2 := splitOnChar_append ('-' :: ' ' :: x) ('-' :: ' ' :: y) hdx
      rw [splitOnChar_noNL _ hdy] at h2
      simpa using h2
    have hbc : bulletCapture ('-' :: ' ' :: (x ++ '\n' :: '-' :: ' ' :: y)) =
        some ('-' :: ' ' :: (x ++ ['\n'])) := by
      simp [bulletCapture, hspl, hbs, List.dropLast]
    have hmw : matchWsThen ('\n' :: '-' :: ' ' :: (x ++ '\n' :: '-' :: ' ' :: y)) =
        some ('-' :: ' ' :: (x ++ ['\n'])) := by
      simp +decide [matchWsThen, hbc]
    have hscan : regexMatchCapture
        (headerChars ++ '\n' :: '-' :: ' ' :: (x ++ '\n' :: '-' :: ' ' :: y)) =
        some ('-' :: ' ' :: (x ++ ['\n'])) := by
      simp only [headerChars, List.cons_append, List.nil_append]
      simp +decide [regexMatchCapture, matchFromHere, List.isPrefixOf, headerChars, hmw]
    have hspc : splitOnChar '\n' ('-' :: ' ' :: (x ++ ['\n'])) = [('-' :: ' ' :: x), []] := by
      have h3 := splitOnChar_append ('-' :: ' ' :: x) [] hdx
      simpa [splitOnChar] using h3
    have hemp : trimStartsWithDash ([] : List Char) = false := rfl
    simp +decide [loadTargetURLs, targetsFromPrompt, hscan, hspc, trimStartsWithDash_dash,
      hemp, stripBullet, List.dropWhile_cons, jsTrim_dropWhile]
  · -- part (b): a sole unterminated bullet yields no capture at all
    have hbc : bulletCapture ('-' :: ' ' :: y) = none := by
      simp [bulletCapture, splitOnChar_noNL _ hdy]
    have hmw : matchWsThen ('\n' :: '-' :: ' ' :: y) = none := by
      simp +decide [matchWsThen, hbc]
    have hn : regexMatchCapture y = none := regexMatchCapture_noNL y hny
    have hp1 : headerChars.isPrefixOf (' ' :: y) = false := rfl
    have hp2 : headerChars.isPrefixOf ('-' :: ' ' :: y) = false := rfl
    have hp3 : headerChars.isPrefixOf ('\n' :: '-' :: ' ' :: y) = false := rfl
    have hn3 : regexMatchCapture ('\n' :: '-' :: ' ' :: y) = none := by
      simp [regexMatchCapture, matchFromHere, hp1, hp2, hp3, hn]
    have hscan : regexMatchCapture (headerChars ++ '\n' :: '-' :: ' ' :: y) = none := by
      simp only [headerChars, List.cons_append, List.nil_append]
      simp +decide [regexMatchCapture, matchFromHere, List.isPrefixOf, headerChars,
        hmw, hn3, hn, hp1, hp2]
    simp [loadTargetURLs, targetsFromPrompt, hscan]

/-- Witness for C10 at concrete bullet contents. -/
theorem template_final_bullet_needs_newline_witness :
    noLT x0 = true ∧ noLT y0 = true ∧
    loadTargetURLs none
      (headerChars ++ '\n' :: '-' :: ' ' :: (x0 ++ '\n' :: '-' :: ' ' :: y0)) = [jsTrim x0] :=
  ⟨by decide, by decide,
    (template_final_bullet_needs_newline x0 y0 (by decide) (by decide)).1⟩
